import Mathlib

/-!
# Verification of the GIS path-playback engine (`src/static/js/map.js`)

This file gives a shallow embedding of the playback engine of the
repository: the interval-driven animation loop `animatePath`, the
supervisor `fetchAndDisplayPath`, and the pure segment-style calculator
`createSegmentStyle`, together with theorems settling the specification
claims about them.

Modelling choices:

* A location fix carries its longitude, latitude (exact rationals in
  place of JS floats) and its timestamp string, exactly the fields the
  code reads (`loc.longitude`, `loc.latitude`, `loc.timestamp`).
* Side effects on the external ports (OpenLayers vector source, the
  timeline `<ul>`, the map view, `alert`) are reified as a trace of
  `Cmd` values, emitted in the order the code performs them.
* The single shared `animationInterval` variable and the features held
  by `vectorSource` form the system state `SysState`; `setInterval`
  becomes a `tick` step function on that state, and elapsing `n` tick
  intervals is `runTicks`.  JS timers are single-threaded: a tick only
  runs while the interval is installed, which the model captures by
  `tick` being a no-op when `timer = none`.
* `ol.proj.fromLonLat` is an external injective projection; commands
  carry the fix itself, standing for its projected coordinate.
* The geometry of `createSegmentStyle` is modelled over `ℝ` (exact real
  arithmetic in place of JS doubles), with `Math.atan2 y x` embedded as
  the argument of the complex number `x + y·i`, which agrees with
  `atan2` on its whole domain including `atan2 0 0 = 0`.
-/

namespace MapJS

/-- One location fix as returned by the `/api/locations` endpoint:
the code reads `loc.longitude`, `loc.latitude` and `loc.timestamp`. -/
structure Loc where
  longitude : ℚ
  latitude : ℚ
  timestamp : String
deriving DecidableEq, Inhabited

/-- A command emitted to one of the external ports, in the order the code
issues them.  `addPoint` carries the fix (its projected coordinate and
its timestamp metadata); `addSegment` carries the two fixes whose
projected coordinates form the `LineString`; `centerOn` is
`map.getView().animate({center, duration, zoom: current})`;
`fitToBounds` is `map.getView().fit(extent, {padding, duration})`;
`clearAll` is `vectorSource.clear()`; `clearTimeline` is
`timelineUl.innerHTML = ` the empty string; `alert` is the blocking
user notification. -/
inductive Cmd where
  | addPoint (loc : Loc)
  | appendEntry (ts : String)
  | addSegment (prev curr : Loc)
  | centerOn (loc : Loc) (durationMs : Nat)
  | fitToBounds (padding : Nat × Nat × Nat × Nat) (durationMs : Nat)
  | clearAll
  | clearTimeline
  | alert (msg : String)
deriving DecidableEq

/-- The closure state of one `animatePath(locations)` call: the captured
`locations` array, the mutable counter `i`, and the mutable
`allCoordinates` array the loop pushes into (each entry stands for the
projected coordinate of the corresponding fix). -/
structure AnimSession where
  locations : List Loc
  i : Nat
  allCoordinates : List Loc
deriving DecidableEq

/-- The shared mutable state of the page: the single `animationInterval`
handle (`none` when no interval is installed) and the number of features
currently held by `vectorSource`. -/
structure SysState where
  timer : Option AnimSession
  features : Nat
deriving DecidableEq

/-- The delay passed to `setInterval` in `animatePath` (line 174 of
`map.js`): 2000 time units. -/
def setIntervalDelayMs : Nat := 2000

/-- One firing of the interval callback installed by `animatePath`.
Returns the commands emitted by this tick and the successor state.
When no interval is installed nothing fires.  Otherwise, mirroring the
callback body: if `i >= locations.length`, clear the interval and fit
the view to the final path when the vector source is non-empty;
else read `locations[i]`, push its coordinate onto `allCoordinates`,
add the point feature, append the timeline entry, add the segment
feature from `allCoordinates[i-1]` when `i > 0`, animate the view to
center on the point, and increment `i`. -/
def tick (sys : SysState) : List Cmd × SysState :=
  match sys.timer with
  | none => ([], sys)
  | some sess =>
    if h : sess.i < sess.locations.length then
      let loc := sess.locations.get ⟨sess.i, h⟩
      let allCoords := sess.allCoordinates ++ [loc]
      let segCmds :=
        if 0 < sess.i then
          [Cmd.addSegment (allCoords.getD (sess.i - 1) default) loc]
        else []
      ([Cmd.addPoint loc, Cmd.appendEntry loc.timestamp] ++ segCmds ++
         [Cmd.centerOn loc 1000],
       { timer := some { sess with i := sess.i + 1, allCoordinates := allCoords },
         features := sys.features + (if 0 < sess.i then 2 else 1) })
    else
      ((if 0 < sys.features then [Cmd.fitToBounds (50, 50, 50, 50) 1000] else []),
       { timer := none, features := sys.features })

/-- Elapsing `n` tick intervals: the concatenated trace and final state. -/
def runTicks : SysState → Nat → List Cmd × SysState
  | sys, 0 => ([], sys)
  | sys, n + 1 =>
    let step := tick sys
    let rest := runTicks step.2 n
    (step.1 ++ rest.1, rest.2)

/-- `animatePath(locations)` itself only installs the interval: it sets
`i = 0`, `allCoordinates = []`, and assigns `animationInterval`. -/
def animatePath (sys : SysState) (locations : List Loc) : SysState :=
  { sys with timer := some { locations := locations, i := 0, allCoordinates := [] } }

/-- The outcome of the awaited `fetch` of `/api/locations`: either a
rejection / non-ok HTTP status (both reach the same `catch` block), or a
JSON array of locations. -/
inductive FetchResult where
  | failure
  | ok (locations : List Loc)
deriving DecidableEq

/-- `fetchAndDisplayPath()`, the supervisor: stop any ongoing animation
(`clearInterval`), clear the vector source and the timeline, validate
the selections, and on a successful non-empty fetch start
`animatePath`; empty results and failures raise an `alert` and create
no session.  The fetch outcome is passed in as `result`. -/
def fetchAndDisplayPath (sys : SysState) (groupId startDate endDate : String)
    (result : FetchResult) : List Cmd × SysState :=
  let sysCleared : SysState := { timer := none, features := 0 }
  if groupId = "" ∨ startDate = "" ∨ endDate = "" then
    ([Cmd.clearAll, Cmd.clearTimeline,
      Cmd.alert "Please select a group and a date range."], sysCleared)
  else
    match result with
    | .failure =>
      ([Cmd.clearAll, Cmd.clearTimeline,
        Cmd.alert "Failed to fetch location data."], sysCleared)
    | .ok locations =>
      if locations.length = 0 then
        ([Cmd.clearAll, Cmd.clearTimeline,
          Cmd.alert "No data available for the selected criteria."], sysCleared)
      else
        ([Cmd.clearAll, Cmd.clearTimeline], animatePath sysCleared locations)

/-- `clearInterval(animationInterval)`: cancels the recurring schedule.
This is how a playing session is cancelled (the supervisor calls it
before superseding a session). -/
def clearAnimationInterval (sys : SysState) : SysState := { sys with timer := none }

/-- The state right after `animatePath` has been started on a cleared
page, as the supervisor does. -/
def startPlayback (locations : List Loc) : SysState :=
  animatePath { timer := none, features := 0 } locations

/-- The full trace of a playback of `locations` run to completion
(`locations.length` revealing ticks plus the tick that detects
completion). -/
def playbackTrace (locations : List Loc) : List Cmd :=
  (runTicks (startPlayback locations) (locations.length + 1)).1

/-- Recogniser for `addPoint` commands. -/
def isAddPoint : Cmd → Bool
  | .addPoint _ => true
  | _ => false

/-- Recogniser for `addSegment` commands. -/
def isAddSegment : Cmd → Bool
  | .addSegment _ _ => true
  | _ => false

/-- Recogniser for `fitToBounds` commands. -/
def isFit : Cmd → Bool
  | .fitToBounds _ _ => true
  | _ => false

/-- Recogniser for camera commands (`centerOn` and `fitToBounds`). -/
def isCamera : Cmd → Bool
  | .centerOn _ _ => true
  | .fitToBounds _ _ => true
  | _ => false

/-- The revealed count of the session after `n` tick intervals of a
playback of `locations`: the loop index `i` while the interval is
installed, and `locations.length` once the completed session has
released its timer. -/
def sessionIndexAfter (locations : List Loc) (n : Nat) : Nat :=
  match (runTicks (startPlayback locations) n).2.timer with
  | some sess => sess.i
  | none => locations.length

/-- The four commands one revealing tick for fix index `j` emits, in
code order: the point feature, the timeline entry, the segment feature
(for `j > 0`, connecting fix `j-1` to fix `j`), and the animated pan. -/
def perFix (locations : List Loc) (j : Nat) : List Cmd :=
  [Cmd.addPoint (locations.getD j default),
   Cmd.appendEntry (locations.getD j default).timestamp] ++
  (if 0 < j then
    [Cmd.addSegment (locations.getD (j - 1) default) (locations.getD j default)]
   else []) ++
  [Cmd.centerOn (locations.getD j default) 1000]

/-- Number of features held by `vectorSource` once the first `i` fixes of
a session started on a cleared page have been revealed: `i` points plus
`i - 1` segments. -/
def featAt (i : Nat) : Nat := if i = 0 then 0 else 2 * i - 1

/-- A concrete two-fix path used to instantiate the theorems. -/
def demoLocs : List Loc :=
  [{ longitude := 77, latitude := 28, timestamp := "t0" },
   { longitude := 78, latitude := 29, timestamp := "t1" }]

/-- A second concrete path, for the supersession scenario. -/
def demoLocs2 : List Loc :=
  [{ longitude := 10, latitude := 20, timestamp := "u0" }]

/-- The system state after a first `fetchAndDisplayPath` call whose fetch
resolved with `L1`, starting from a fresh page. -/
def firstSessionState (L1 : List Loc) (g s e : String) : SysState :=
  (fetchAndDisplayPath ⟨none, 0⟩ g s e (.ok L1)).2

/-- A second `fetchAndDisplayPath` call, made after `t` tick intervals of
the first session have elapsed, whose fetch resolved with `L2`. -/
def secondCall (L1 L2 : List Loc) (g s e : String) (t : Nat) : List Cmd × SysState :=
  fetchAndDisplayPath (runTicks (firstSessionState L1 g s e) t).2 g s e (.ok L2)

/-- `Math.atan2 y x`, embedded as the argument of the complex number
`x + y·i` (principal value in `(-π, π]`, with `atan2 0 0 = 0`). -/
noncomputable def atan2 (y x : ℝ) : ℝ := Complex.arg ⟨x, y⟩

/-- The style data computed by `createSegmentStyle` for one segment:
the dashed-stroke parameters of the line style, and the midpoint,
rotation, anchor, scale and rotate-with-view flag of the arrow icon
style. -/
structure SegmentStyle where
  strokeColor : String
  strokeWidth : Nat
  lineDash : List Nat
  arrowMidpoint : ℝ × ℝ
  arrowRotation : ℝ
  arrowAnchor : ℚ × ℚ
  rotateWithView : Bool
  arrowScale : ℚ

/-- `createSegmentStyle(geometry)` on a `LineString` whose coordinates
are `start` and `stop` (already projected): a dashed blue stroke, and an
arrow icon at the component-wise midpoint, rotated by
`-atan2(dy, dx) + π/2`. -/
noncomputable def createSegmentStyle (start stop : ℝ × ℝ) : SegmentStyle :=
  let dx := stop.1 - start.1
  let dy := stop.2 - start.2
  let rotation := atan2 dy dx
  let midpoint := ((start.1 + stop.1) / 2, (start.2 + stop.2) / 2)
  { strokeColor := "#007bff"
    strokeWidth := 2
    lineDash := [20, 5]
    arrowMidpoint := midpoint
    arrowRotation := -rotation + Real.pi / 2
    arrowAnchor := (1/2, 1/2)
    rotateWithView := true
    arrowScale := 3/5 }

/-! ## Basic stepping lemmas -/

lemma runTicks_succ (sys : SysState) (n : Nat) :
    runTicks sys (n + 1) =
      ((tick sys).1 ++ (runTicks (tick sys).2 n).1, (runTicks (tick sys).2 n).2) := rfl

lemma tick_none (f : Nat) : tick ⟨none, f⟩ = ([], ⟨none, f⟩) := rfl

lemma runTicks_none (f n : Nat) : runTicks (⟨none, f⟩ : SysState) n = ([], ⟨none, f⟩) := by
  induction n with
  | zero => rfl
  | succ m ih => rw [runTicks_succ, tick_none]; simpa using ih

lemma runTicks_add (sys : SysState) (a b : Nat) :
    runTicks sys (a + b) =
      ((runTicks sys a).1 ++ (runTicks (runTicks sys a).2 b).1,
       (runTicks (runTicks sys a).2 b).2) := by
  induction a generalizing sys with
  | zero => simp [runTicks]
  | succ m ih =>
    have harith : m + 1 + b = (m + b) + 1 := by omega
    rw [harith, runTicks_succ, runTicks_succ, ih]
    simp [List.append_assoc]

lemma featAt_succ (i : Nat) :
    featAt (i + 1) = featAt i + (if 0 < i then 2 else 1) := by
  rcases i with _ | j
  · simp [featAt]
  · simp [featAt]
    omega

lemma tick_complete (locs pre : List Loc) (i f : Nat) (h : locs.length ≤ i) :
    tick ⟨some ⟨locs, i, pre⟩, f⟩ =
      ((if 0 < f then [Cmd.fitToBounds (50, 50, 50, 50) 1000] else []), ⟨none, f⟩) := by
  simp only [tick]
  rw [dif_neg (by omega)]

lemma tick_step (locs : List Loc) (i : Nat) (h : i < locs.length) (f : Nat) :
    tick ⟨some ⟨locs, i, locs.take i⟩, f⟩ =
      (perFix locs i,
       ⟨some ⟨locs, i + 1, locs.take (i + 1)⟩, f + (if 0 < i then 2 else 1)⟩) := by
  have htake : locs.take i ++ [locs.get ⟨i, h⟩] = locs.take (i + 1) := by
    rw [← List.concat_eq_append]
    exact List.take_concat_get locs i h
  have hgetD : locs.getD i default = locs.get ⟨i, h⟩ := by
    rw [List.getD_eq_getElem _ _ h]; rfl
  have hseg : 0 < i →
      (locs.take i ++ [locs.get ⟨i, h⟩]).getD (i - 1) default =
        locs.getD (i - 1) default := by
    intro hi
    have hlen : (locs.take i).length = i := by rw [List.length_take]; omega
    rw [List.getD_append _ _ _ _ (by omega)]
    have h1 : i - 1 < (locs.take i).length := by omega
    rw [List.getD_eq_getElem _ _ h1, List.getElem_take,
      List.getD_eq_getElem _ _ (by omega)]
  simp only [tick, perFix]
  rw [dif_pos h]
  have hget' : locs[i]?.getD default = locs[i] := by
    rw [List.getElem?_eq_getElem h]
    rfl
  rcases Nat.eq_zero_or_pos i with hi | hi
  · subst hi
    have htake1 : List.take 1 locs = [locs[0]] := by simpa using htake.symm
    simp [htake, hget', htake1]
  · have h1 : i - 1 < (List.take (i + 1) locs).length := by
      rw [List.length_take]; omega
    have h2 : i - 1 < locs.length := by omega
    have hseg' : (List.take (i + 1) locs)[i - 1]?.getD default =
        locs[i - 1]?.getD default := by
      rw [List.getElem?_eq_getElem h1, List.getElem?_eq_getElem h2]
      simp [List.getElem_take]
    simp [if_pos hi, htake, hget', hseg']

/-! ## Closed forms for a full playback -/

lemma runTicks_play (locs : List Loc) :
    ∀ k i, i + k = locs.length →
      runTicks ⟨some ⟨locs, i, locs.take i⟩, featAt i⟩ (k + 1) =
        ((List.range' i k).flatMap (perFix locs) ++
           (if 0 < featAt locs.length then [Cmd.fitToBounds (50, 50, 50, 50) 1000]
            else []),
         ⟨none, featAt locs.length⟩) := by
  intro k
  induction k with
  | zero =>
    intro i hi
    rw [runTicks_succ, tick_complete _ _ _ _ (by omega)]
    simp only [Nat.add_zero] at hi
    subst hi
    simp [runTicks, List.range']
  | succ m ih =>
    intro i hi
    rw [runTicks_succ, tick_step _ _ (by omega), ← featAt_succ]
    rw [ih (i + 1) (by omega)]
    simp [List.range', List.flatMap_cons, List.append_assoc]

lemma runTicks_state (locs : List Loc) :
    ∀ k i, i + k ≤ locs.length →
      (runTicks ⟨some ⟨locs, i, locs.take i⟩, featAt i⟩ k).2 =
        ⟨some ⟨locs, i + k, locs.take (i + k)⟩, featAt (i + k)⟩ := by
  intro k
  induction k with
  | zero => intro i hi; simp [runTicks]
  | succ m ih =>
    intro i hi
    rw [runTicks_succ, tick_step _ _ (by omega), ← featAt_succ]
    have harith : i + 1 + m = i + (m + 1) := by omega
    rw [ih (i + 1) (by omega), harith]

lemma startPlayback_eq (locs : List Loc) :
    startPlayback locs = ⟨some ⟨locs, 0, locs.take 0⟩, featAt 0⟩ := rfl

lemma playbackTrace_eq (locs : List Loc) :
    playbackTrace locs =
      (List.range locs.length).flatMap (perFix locs) ++
        (if 0 < featAt locs.length then [Cmd.fitToBounds (50, 50, 50, 50) 1000]
         else []) := by
  have h := runTicks_play locs locs.length 0 (by omega)
  rw [playbackTrace, startPlayback_eq, h, List.range_eq_range']

lemma playback_final_state (locs : List Loc) :
    (runTicks (startPlayback locs) (locs.length + 1)).2 = ⟨none, featAt locs.length⟩ := by
  have h := runTicks_play locs locs.length 0 (by omega)
  rw [startPlayback_eq, h]

lemma state_after (locs : List Loc) (n : Nat) (hn : n ≤ locs.length) :
    (runTicks (startPlayback locs) n).2 = ⟨some ⟨locs, n, locs.take n⟩, featAt n⟩ := by
  have h := runTicks_state locs n 0 (by omega)
  rw [startPlayback_eq, h]
  simp

lemma state_after_complete (locs : List Loc) (n : Nat) (hn : locs.length < n) :
    (runTicks (startPlayback locs) n).2 = ⟨none, featAt locs.length⟩ := by
  have hdecomp : n = (locs.length + 1) + (n - locs.length - 1) := by omega
  rw [hdecomp, runTicks_add, playback_final_state, runTicks_none]

lemma sessionIndexAfter_eq (locs : List Loc) (n : Nat) :
    sessionIndexAfter locs n = min n locs.length := by
  rcases le_or_lt n locs.length with h | h
  · unfold sessionIndexAfter
    rw [state_after locs n h]
    simp
    omega
  · unfold sessionIndexAfter
    rw [state_after_complete locs n h]
    simp
    omega

lemma featAt_pos (i : Nat) : 0 < featAt i ↔ 0 < i := by
  rcases i with _ | j
  · simp [featAt]
  · simp [featAt]
    omega

lemma fetchAndDisplayPath_ok (sys : SysState) (g s e : String)
    (hg : g ≠ "") (hs : s ≠ "") (he : e ≠ "") (locs : List Loc) (hl : locs ≠ []) :
    fetchAndDisplayPath sys g s e (.ok locs) =
      ([Cmd.clearAll, Cmd.clearTimeline], startPlayback locs) := by
  simp [fetchAndDisplayPath, hg, hs, he, hl, startPlayback, animatePath,
    List.length_eq_zero]

/-! ## Sub-traces of a full playback -/

lemma perFix_filter_addPoint (locs : List Loc) (j : Nat) :
    (perFix locs j).filter isAddPoint = [Cmd.addPoint (locs.getD j default)] := by
  rcases Nat.eq_zero_or_pos j with h | h
  · subst h; simp [perFix, isAddPoint, List.filter]
  · simp [perFix, isAddPoint, h, List.filter]

lemma perFix_filter_addSegment (locs : List Loc) (j : Nat) :
    (perFix locs j).filter isAddSegment =
      if 0 < j then
        [Cmd.addSegment (locs.getD (j - 1) default) (locs.getD j default)]
      else [] := by
  rcases Nat.eq_zero_or_pos j with h | h
  · subst h; simp [perFix, isAddSegment, List.filter]
  · simp [perFix, isAddSegment, h, List.filter]

lemma perFix_filter_fit (locs : List Loc) (j : Nat) :
    (perFix locs j).filter isFit = [] := by
  rcases Nat.eq_zero_or_pos j with h | h
  · subst h; simp [perFix, isFit, List.filter]
  · simp [perFix, isFit, h, List.filter]

lemma fitTail_filter_addPoint (f : Nat) :
    (if 0 < f then [Cmd.fitToBounds (50, 50, 50, 50) 1000] else []).filter
      isAddPoint = [] := by
  split <;> simp [isAddPoint, List.filter]

lemma fitTail_filter_addSegment (f : Nat) :
    (if 0 < f then [Cmd.fitToBounds (50, 50, 50, 50) 1000] else []).filter
      isAddSegment = [] := by
  split <;> simp [isAddSegment, List.filter]

lemma range_map_getD (locs : List Loc) :
    (List.range locs.length).map (fun j => locs.getD j default) = locs := by
  apply List.ext_getElem
  · simp
  · intro n h1 h2
    simp only [List.getElem_map, List.getElem_range]
    rw [List.getD_eq_getElem _ _ h2]

lemma playback_filter_addPoint (locs : List Loc) :
    (playbackTrace locs).filter isAddPoint = locs.map Cmd.addPoint := by
  rw [playbackTrace_eq, List.filter_append, List.filter_flatMap,
    fitTail_filter_addPoint, List.append_nil]
  simp only [perFix_filter_addPoint]
  rw [← List.map_eq_flatMap]
  have hcomp :
      List.map (fun a => Cmd.addPoint (locs.getD a default)) (List.range locs.length) =
        List.map Cmd.addPoint
          ((List.range locs.length).map (fun j => locs.getD j default)) := by
    rw [List.map_map]
    rfl
  rw [hcomp, range_map_getD]

lemma playback_filter_addSegment (locs : List Loc) :
    (playbackTrace locs).filter isAddSegment =
      (List.range (locs.length - 1)).map
        (fun k => Cmd.addSegment (locs.getD k default) (locs.getD (k + 1) default)) := by
  rw [playbackTrace_eq, List.filter_append, List.filter_flatMap,
    fitTail_filter_addSegment, List.append_nil]
  simp only [perFix_filter_addSegment]
  cases hN : locs.length with
  | zero => simp
  | succ m =>
    rw [List.range_succ_eq_map, List.flatMap_cons, List.flatMap_map]
    simp [← List.map_eq_flatMap]

/-! ## Claim theorems -/

/-- C1: for every non-empty ordered list of `N` fixes, a playback run to
completion issues exactly `N` `addPoint` commands and exactly `N - 1`
`addSegment` commands; the `addPoint` sub-trace is the fixes in order
(strictly increasing fix-index order), and the `addSegment` sub-trace is,
for `k = 0, …, N-2` in order, the segment connecting fix `k` to fix
`k + 1`. -/
theorem C1_playback_counts_and_order (locs : List Loc) (h : locs ≠ []) :
    ((playbackTrace locs).filter isAddPoint).length = locs.length ∧
    ((playbackTrace locs).filter isAddSegment).length = locs.length - 1 ∧
    (playbackTrace locs).filter isAddPoint = locs.map Cmd.addPoint ∧
    (playbackTrace locs).filter isAddSegment =
      (List.range (locs.length - 1)).map
        (fun k => Cmd.addSegment (locs.getD k default) (locs.getD (k + 1) default)) := by
  refine ⟨?_, ?_, playback_filter_addPoint locs, playback_filter_addSegment locs⟩
  · rw [playback_filter_addPoint]
    simp
  · rw [playback_filter_addSegment]
    simp

/-- Witness for C1 at the concrete two-fix path `demoLocs`. -/
theorem C1_witness :
    ((playbackTrace demoLocs).filter isAddPoint).length = demoLocs.length ∧
    ((playbackTrace demoLocs).filter isAddSegment).length = demoLocs.length - 1 ∧
    (playbackTrace demoLocs).filter isAddPoint = demoLocs.map Cmd.addPoint ∧
    (playbackTrace demoLocs).filter isAddSegment =
      (List.range (demoLocs.length - 1)).map
        (fun k => Cmd.addSegment (demoLocs.getD k default)
          (demoLocs.getD (k + 1) default)) :=
  C1_playback_counts_and_order demoLocs (by decide)

/-- C3: after `clearInterval` cancels a session, no further command of
any kind (in particular no `addPoint`, `addSegment`, `appendEntry` or
`centerOn`) is emitted, however many further tick intervals elapse: a
tick only runs while the interval is installed, so a pending tick and
the cancellation never both execute. -/
theorem C3_cancelled_session_is_silent (sys : SysState) (n : Nat) :
    (runTicks (clearAnimationInterval sys) n).1 = [] ∧
    (runTicks (clearAnimationInterval sys) n).2 = clearAnimationInterval sys := by
  have h : clearAnimationInterval sys = ⟨none, sys.features⟩ := rfl
  rw [h, runTicks_none]
  exact ⟨rfl, rfl⟩

/-- C4: the rotation supplied to the renderer for a segment from `prev`
to `curr` is `-atan2(curr.y - prev.y, curr.x - prev.x) + π/2`; for pure
+x travel it is `π/2` and for pure +y travel it is `0`. -/
theorem C4_rotation_formula (prev curr : ℝ × ℝ) :
    (createSegmentStyle prev curr).arrowRotation =
      -atan2 (curr.2 - prev.2) (curr.1 - prev.1) + Real.pi / 2 ∧
    (createSegmentStyle (0, 0) (1, 0)).arrowRotation = Real.pi / 2 ∧
    (createSegmentStyle (0, 0) (0, 1)).arrowRotation = 0 := by
  refine ⟨rfl, ?_, ?_⟩
  · show -atan2 ((0 : ℝ) - 0) ((1 : ℝ) - 0) + Real.pi / 2 = Real.pi / 2
    have h1 : ((⟨(1 : ℝ) - 0, (0 : ℝ) - 0⟩ : ℂ)) = 1 := by
      simp [Complex.ext_iff]
    rw [atan2, h1, Complex.arg_one]
    ring
  · show -atan2 ((1 : ℝ) - 0) ((0 : ℝ) - 0) + Real.pi / 2 = 0
    have h1 : ((⟨(0 : ℝ) - 0, (1 : ℝ) - 0⟩ : ℂ)) = Complex.I := by
      simp [Complex.ext_iff, Complex.I_re, Complex.I_im]
    rw [atan2, h1, Complex.arg_I]
    ring

/-- C5 counterexample: at the degenerate input `prev = curr = (0, 0)` the
rotation supplied to the renderer is NOT `0` (it is
`-atan2(0,0) + π/2 = π/2`), so the claim "rendered with rotation 0" is
false at this input. -/
theorem C5_counterexample :
    ¬ (createSegmentStyle ((0 : ℝ), (0 : ℝ)) (0, 0)).arrowRotation = 0 := by
  have h1 : ((⟨(0 : ℝ) - 0, (0 : ℝ) - 0⟩ : ℂ)) = 0 := by
    simp [Complex.ext_iff]
  show ¬ (-atan2 ((0 : ℝ) - 0) ((0 : ℝ) - 0) + Real.pi / 2 = 0)
  rw [atan2, h1, Complex.arg_zero]
  intro hc
  rw [neg_zero, zero_add] at hc
  exact Real.pi_ne_zero (by linarith)

/-- C5 amended: for the degenerate input `prev = curr` the segment
calculation is total (no error), the internal angle `atan2(0, 0)` is
`0`, the rendered segment is zero-length (its arrow midpoint coincides
with the point itself), and the rotation supplied to the renderer is
`-0 + π/2 = π/2`, not `0`. -/
theorem C5_degenerate_segment (p : ℝ × ℝ) :
    atan2 0 0 = 0 ∧
    (createSegmentStyle p p).arrowMidpoint = p ∧
    (createSegmentStyle p p).arrowRotation = Real.pi / 2 := by
  have h0 : atan2 0 0 = 0 := by
    have h1 : ((⟨(0 : ℝ), (0 : ℝ)⟩ : ℂ)) = 0 := by
      simp [Complex.ext_iff]
    rw [atan2, h1, Complex.arg_zero]
  refine ⟨h0, ?_, ?_⟩
  · show ((p.1 + p.1) / 2, (p.2 + p.2) / 2) = p
    have hx : (p.1 + p.1) / 2 = p.1 := by ring
    have hy : (p.2 + p.2) / 2 = p.2 := by ring
    rw [hx, hy]
  · show -atan2 (p.2 - p.2) (p.1 - p.1) + Real.pi / 2 = Real.pi / 2
    rw [sub_self, sub_self, h0]
    ring

/-- C9: the arrow midpoint is the component-wise arithmetic mean of the
segment's two projected coordinates; for `prev = (2,2)`, `curr = (4,6)`
it is `(3,4)`. -/
theorem C9_midpoint_mean (prev curr : ℝ × ℝ) :
    (createSegmentStyle prev curr).arrowMidpoint =
      ((prev.1 + curr.1) / 2, (prev.2 + curr.2) / 2) ∧
    (createSegmentStyle ((2 : ℝ), (2 : ℝ)) (4, 6)).arrowMidpoint = (3, 4) := by
  refine ⟨rfl, ?_⟩
  show (((2 : ℝ) + 4) / 2, ((2 : ℝ) + 6) / 2) = ((3 : ℝ), (4 : ℝ))
  norm_num

/-- C2: a second `fetchAndDisplayPath` call made before the first session
completes supersedes it: the second call emits exactly one
`clearAll`/`clear` pair, leaves the second session (and no timer of the
first) installed, every `addPoint`/`addSegment` issued afterwards comes
from the second request's fix list only, and nothing fires after the
second session completes. -/
theorem C2_second_request_supersedes (L1 L2 : List Loc) (g s e : String)
    (hg : g ≠ "") (hs : s ≠ "") (he : e ≠ "")
    (h1 : L1 ≠ []) (h2 : L2 ≠ []) (t : Nat) (ht : t ≤ L1.length) :
    (secondCall L1 L2 g s e t).1 = [Cmd.clearAll, Cmd.clearTimeline] ∧
    (secondCall L1 L2 g s e t).1.count Cmd.clearAll = 1 ∧
    (secondCall L1 L2 g s e t).1.count Cmd.clearTimeline = 1 ∧
    (secondCall L1 L2 g s e t).2 = startPlayback L2 ∧
    (runTicks (secondCall L1 L2 g s e t).2 (L2.length + 1)).1.filter isAddPoint =
      L2.map Cmd.addPoint ∧
    (runTicks (secondCall L1 L2 g s e t).2 (L2.length + 1)).1.filter isAddSegment =
      (List.range (L2.length - 1)).map
        (fun k => Cmd.addSegment (L2.getD k default) (L2.getD (k + 1) default)) ∧
    ∀ m, (runTicks (runTicks (secondCall L1 L2 g s e t).2 (L2.length + 1)).2 m).1
      = [] := by
  have hcall : secondCall L1 L2 g s e t =
      ([Cmd.clearAll, Cmd.clearTimeline], startPlayback L2) := by
    unfold secondCall
    exact fetchAndDisplayPath_ok _ g s e hg hs he L2 h2
  rw [hcall]
  refine ⟨rfl, rfl, rfl, rfl, ?_, ?_, ?_⟩
  · exact playback_filter_addPoint L2
  · exact playback_filter_addSegment L2
  · intro m
    rw [playback_final_state, runTicks_none]

/-- Witness for C2: first session `demoLocs`, superseded after one tick
by a request for `demoLocs2`. -/
theorem C2_witness :
    (secondCall demoLocs demoLocs2 "g" "2024-01-01" "2024-01-31" 1).1 =
      [Cmd.clearAll, Cmd.clearTimeline] ∧
    (secondCall demoLocs demoLocs2 "g" "2024-01-01" "2024-01-31" 1).1.count
      Cmd.clearAll = 1 ∧
    (secondCall demoLocs demoLocs2 "g" "2024-01-01" "2024-01-31" 1).1.count
      Cmd.clearTimeline = 1 ∧
    (secondCall demoLocs demoLocs2 "g" "2024-01-01" "2024-01-31" 1).2 =
      startPlayback demoLocs2 ∧
    (runTicks (secondCall demoLocs demoLocs2 "g" "2024-01-01" "2024-01-31" 1).2
        (demoLocs2.length + 1)).1.filter isAddPoint =
      demoLocs2.map Cmd.addPoint ∧
    (runTicks (secondCall demoLocs demoLocs2 "g" "2024-01-01" "2024-01-31" 1).2
        (demoLocs2.length + 1)).1.filter isAddSegment =
      (List.range (demoLocs2.length - 1)).map
        (fun k => Cmd.addSegment (demoLocs2.getD k default)
          (demoLocs2.getD (k + 1) default)) ∧
    ∀ m, (runTicks (runTicks
        (secondCall demoLocs demoLocs2 "g" "2024-01-01" "2024-01-31" 1).2
        (demoLocs2.length + 1)).2 m).1 = [] :=
  C2_second_request_supersedes demoLocs demoLocs2 "g" "2024-01-01" "2024-01-31"
    (by decide) (by decide) (by decide) (by decide) (by decide) 1 (by decide)

/-- C6: throughout a playback of `N` fixes the revealed count satisfies
`0 ≤ revealedCount ≤ N`, is non-decreasing, increases by exactly `1` on
each advancing tick, reaches exactly `N` at completion, and a fix is
only ever read (an `addPoint` emitted) while the revealed count is
strictly below `N`. -/
theorem C6_revealed_count_invariant (locs : List Loc) (n : Nat) :
    sessionIndexAfter locs n ≤ locs.length ∧
    sessionIndexAfter locs n ≤ sessionIndexAfter locs (n + 1) ∧
    (sessionIndexAfter locs n < locs.length →
      sessionIndexAfter locs (n + 1) = sessionIndexAfter locs n + 1) ∧
    sessionIndexAfter locs locs.length = locs.length ∧
    ∀ c ∈ (tick (runTicks (startPlayback locs) n).2).1, isAddPoint c = true →
      sessionIndexAfter locs n < locs.length := by
  refine ⟨?_, ?_, ?_, ?_, ?_⟩
  · rw [sessionIndexAfter_eq]; omega
  · rw [sessionIndexAfter_eq, sessionIndexAfter_eq]; omega
  · rw [sessionIndexAfter_eq, sessionIndexAfter_eq]; omega
  · rw [sessionIndexAfter_eq]; omega
  · intro c hc hpt
    rcases lt_or_ge n locs.length with h | h
    · rw [sessionIndexAfter_eq]; omega
    · exfalso
      rcases eq_or_lt_of_le h with heq | hgt
      · rw [← heq, state_after locs locs.length (le_refl _),
          tick_complete _ _ _ _ (le_refl _)] at hc
        split at hc
        · simp at hc
          subst hc
          simp [isAddPoint] at hpt
        · simp at hc
      · rw [state_after_complete locs n hgt, tick_none] at hc
        simp at hc

/-- Witness for C6 at the concrete path `demoLocs` after one tick. -/
theorem C6_witness :
    sessionIndexAfter demoLocs 1 ≤ demoLocs.length ∧
    sessionIndexAfter demoLocs 1 ≤ sessionIndexAfter demoLocs (1 + 1) ∧
    (sessionIndexAfter demoLocs 1 < demoLocs.length →
      sessionIndexAfter demoLocs (1 + 1) = sessionIndexAfter demoLocs 1 + 1) ∧
    sessionIndexAfter demoLocs demoLocs.length = demoLocs.length ∧
    ∀ c ∈ (tick (runTicks (startPlayback demoLocs) 1).2).1, isAddPoint c = true →
      sessionIndexAfter demoLocs 1 < demoLocs.length :=
  C6_revealed_count_invariant demoLocs 1

/-- C7: a playback request whose fetch resolves with an empty fix list
surfaces the "no data" alert, installs no session, issues no
`addPoint`, `addSegment` or camera command, and leaves the map and
timeline cleared. -/
theorem C7_empty_result (sys : SysState) (g s e : String)
    (hg : g ≠ "") (hs : s ≠ "") (he : e ≠ "") :
    fetchAndDisplayPath sys g s e (.ok []) =
      ([Cmd.clearAll, Cmd.clearTimeline,
        Cmd.alert "No data available for the selected criteria."],
       ⟨none, 0⟩) ∧
    (fetchAndDisplayPath sys g s e (.ok [])).1.filter isAddPoint = [] ∧
    (fetchAndDisplayPath sys g s e (.ok [])).1.filter isAddSegment = [] ∧
    (fetchAndDisplayPath sys g s e (.ok [])).1.filter isCamera = [] ∧
    (fetchAndDisplayPath sys g s e (.ok [])).2.timer = none := by
  have heq : fetchAndDisplayPath sys g s e (.ok []) =
      ([Cmd.clearAll, Cmd.clearTimeline,
        Cmd.alert "No data available for the selected criteria."],
       ⟨none, 0⟩) := by
    simp [fetchAndDisplayPath, hg, hs, he]
  rw [heq]
  refine ⟨rfl, ?_, ?_, ?_, rfl⟩ <;>
    simp [isAddPoint, isAddSegment, isCamera, List.filter]

/-- Witness for C7 at concrete selections. -/
theorem C7_witness :
    fetchAndDisplayPath ⟨none, 0⟩ "g" "2024-01-01" "2024-01-31" (.ok []) =
      ([Cmd.clearAll, Cmd.clearTimeline,
        Cmd.alert "No data available for the selected criteria."],
       ⟨none, 0⟩) ∧
    (fetchAndDisplayPath ⟨none, 0⟩ "g" "2024-01-01" "2024-01-31"
        (.ok [])).1.filter isAddPoint = [] ∧
    (fetchAndDisplayPath ⟨none, 0⟩ "g" "2024-01-01" "2024-01-31"
        (.ok [])).1.filter isAddSegment = [] ∧
    (fetchAndDisplayPath ⟨none, 0⟩ "g" "2024-01-01" "2024-01-31"
        (.ok [])).1.filter isCamera = [] ∧
    (fetchAndDisplayPath ⟨none, 0⟩ "g" "2024-01-01" "2024-01-31"
        (.ok [])).2.timer = none :=
  C7_empty_result ⟨none, 0⟩ "g" "2024-01-01" "2024-01-31"
    (by decide) (by decide) (by decide)

/-- C8: on the tick that finds the model complete, the recurring
schedule is cancelled (the timer is released and no later tick emits
anything), and `fitToBounds` with padding `(50,50,50,50)` and duration
`1000` is issued exactly once when at least one fix was revealed (the
vector source is non-empty) and not at all otherwise. -/
theorem C8_completion_fit (locs : List Loc) :
    ((tick (runTicks (startPlayback locs) locs.length).2).1.count
        (Cmd.fitToBounds (50, 50, 50, 50) 1000) =
      if 0 < locs.length then 1 else 0) ∧
    (tick (runTicks (startPlayback locs) locs.length).2).2.timer = none ∧
    ∀ m, (runTicks (tick (runTicks (startPlayback locs) locs.length).2).2 m).1
      = [] := by
  rw [state_after locs locs.length (le_refl _), tick_complete _ _ _ _ (le_refl _)]
  refine ⟨?_, rfl, ?_⟩
  · rcases Nat.eq_zero_or_pos locs.length with h | h
    · have hf : ¬ 0 < featAt locs.length := by
        rw [h]
        simp [featAt]
      rw [if_neg hf, if_neg (by omega)]
      rfl
    · rw [if_pos h, if_pos ((featAt_pos _).2 h)]
      rfl
  · intro m
    rw [runTicks_none]

/-- C10: playback of `N` fixes takes exactly `N + 1` firings of the
recurring callback at the fixed `setInterval` delay of 2000 time units:
each of the first `N` firings reveals exactly one fix (one `addPoint`,
no `fitToBounds`), only the `(N+1)`-th firing detects completion and
issues the `fitToBounds`, and after it the timer is released and no
further firing emits anything — so the fit occurs one full interval
after the final `addPoint`. -/
theorem C10_tick_schedule (locs : List Loc) (h : locs ≠ []) :
    setIntervalDelayMs = 2000 ∧
    (∀ n, n < locs.length →
      ((tick (runTicks (startPlayback locs) n).2).1.filter isAddPoint).length = 1 ∧
      (tick (runTicks (startPlayback locs) n).2).1.filter isFit = []) ∧
    (tick (runTicks (startPlayback locs) locs.length).2).1.filter isAddPoint
      = [] ∧
    (tick (runTicks (startPlayback locs) locs.length).2).1.filter isFit =
      [Cmd.fitToBounds (50, 50, 50, 50) 1000] ∧
    (runTicks (startPlayback locs) (locs.length + 1)).2.timer = none ∧
    ∀ m, (runTicks (runTicks (startPlayback locs) (locs.length + 1)).2 m).1
      = [] := by
  refine ⟨rfl, ?_, ?_, ?_, ?_, ?_⟩
  · intro n hn
    rw [state_after locs n (by omega), tick_step _ _ hn]
    constructor
    · rw [perFix_filter_addPoint]
      rfl
    · exact perFix_filter_fit locs n
  · rw [state_after locs locs.length (le_refl _),
      tick_complete _ _ _ _ (le_refl _)]
    split <;> simp [isAddPoint, List.filter]
  · rw [state_after locs locs.length (le_refl _),
      tick_complete _ _ _ _ (le_refl _)]
    have hpos : 0 < featAt locs.length :=
      (featAt_pos _).2 (List.length_pos.mpr h)
    rw [if_pos hpos]
    simp [isFit, List.filter]
  · rw [playback_final_state]
  · intro m
    rw [playback_final_state, runTicks_none]

/-- Witness for C10 at the concrete two-fix path `demoLocs`. -/
theorem C10_witness :
    setIntervalDelayMs = 2000 ∧
    (∀ n, n < demoLocs.length →
      ((tick (runTicks (startPlayback demoLocs) n).2).1.filter
          isAddPoint).length = 1 ∧
      (tick (runTicks (startPlayback demoLocs) n).2).1.filter isFit = []) ∧
    (tick (runTicks (startPlayback demoLocs) demoLocs.length).2).1.filter
      isAddPoint = [] ∧
    (tick (runTicks (startPlayback demoLocs) demoLocs.length).2).1.filter isFit =
      [Cmd.fitToBounds (50, 50, 50, 50) 1000] ∧
    (runTicks (startPlayback demoLocs) (demoLocs.length + 1)).2.timer = none ∧
    ∀ m, (runTicks (runTicks (startPlayback demoLocs)
        (demoLocs.length + 1)).2 m).1 = [] :=
  C10_tick_schedule demoLocs (by decide)

end MapJS
